import Mathlib

/-!
Verification of minimalpdfparser (a minimal PDF parser) against its
natural-language specification.  The Lean definitions below are a shallow
embedding of the Python source files (`security.py`, `tokenizer.py`,
`parser.py`, `content_parser.py`, `pdf_operator.py`, `tool.py`): byte
strings are `List Nat`, Python dictionaries are association lists with
insert-or-overwrite semantics, Python exceptions are an explicit error
type threaded through `Except`, and numeric values are `Int`/`ℚ`.
-/

namespace MinPdf

/-- Byte string of an ASCII Lean string (each char's code point). -/
def strBytes (s : String) : List Nat :=
  s.data.map (fun c => c.toNat)

/-- Python exception kinds relevant to the embedded code paths. -/
inductive PyErr where
  | keyError
  | typeError
  | valueError
  | assertionError
  | indexError
  | stopIteration
  | tokenError
  | exception
  | fuelOut
  deriving Repr, DecidableEq

/-! ## security.py : RC4 (`_init_ARC4`, `ARC4`) -/

/-- Key schedule of `_init_ARC4` (security.py): one iteration of the KSA
loop body at index `i` with running value `j`. -/
def ksaStep (key : List Nat) (perm : List Nat) (i j : Nat) : List Nat × Nat :=
  let j' := (j + perm.getD i 0 + key.getD (i % key.length) 0) % 256
  let pi := perm.getD i 0
  let pj := perm.getD j' 0
  ((perm.set i pj).set j' pi, j')

/-- Loop of `_init_ARC4` over `range(256)` (counted down by `n`). -/
def ksaLoop (key : List Nat) : Nat → List Nat → Nat → Nat → List Nat
  | 0, perm, _, _ => perm
  | n + 1, perm, i, j =>
    let (perm', j') := ksaStep key perm i j
    ksaLoop key n perm' (i + 1) j'

/-- `_init_ARC4` (security.py lines 247-254): KSA producing the
initial 256-byte permutation. -/
def initARC4 (key : List Nat) : List Nat :=
  ksaLoop key 256 (List.range 256) 0 0

/-- One PRGA step of `ARC4` (security.py lines 209-214): given state
`(perm, i, j)`, produce the updated state and the cipher byte. -/
def prgaStep (perm : List Nat) (i j : Nat) : List Nat × Nat × Nat × Nat :=
  let i' := (i + 1) % 256
  let j' := (j + perm.getD i' 0) % 256
  let pi := perm.getD i' 0
  let pj := perm.getD j' 0
  let perm' := (perm.set i' pj).set j' pi
  let c := perm'.getD ((perm'.getD i' 0 + perm'.getD j' 0) % 256) 0
  (perm', i', j', c)

/-- Loop of `ARC4` over the data bytes: each byte is XORed with the
cipher byte; the `(perm, i, j)` state evolves independently of the data. -/
def arc4Loop : List Nat → List Nat → Nat → Nat → List Nat
  | [], _, _, _ => []
  | b :: rest, perm, i, j =>
    let (perm', i', j', c) := prgaStep perm i j
    (b ^^^ c) :: arc4Loop rest perm' i' j'

/-- `ARC4` (security.py lines 197-216). -/
def ARC4 (key data : List Nat) : List Nat :=
  arc4Loop data (initARC4 key) 0 0

/-! ## tokenizer.py : byte classes, stream wrapper, state machine -/

/-- Token or literal object produced by the tokenizer (base.py:
`OpenDictToken`, `CloseDictToken`, `OpenArrayToken`, `CloseArrayToken`,
`StringObject`, `NameObject`, `NumberObject`, `WordToken`). -/
inductive Tok where
  | openDict
  | closeDict
  | openArray
  | closeArray
  | string (bs : List Nat)
  | name (bs : List Nat)
  | number (bs : List Nat)
  | word (bs : List Nat)
  deriving Repr, DecidableEq

/-- Random-access byte source: the underlying `BinaryIO` stream. -/
structure Src where
  data : List Nat
  pos : Nat
  deriving Repr, DecidableEq

/-- Read one byte (`stream.read(1)`); `none` at end of data. -/
def Src.read1 (s : Src) : Option (Nat × Src) :=
  match s.data.get? s.pos with
  | some b => some (b, { s with pos := s.pos + 1 })
  | none => none

/-- One-byte pushback adapter `StreamWrapper` (tokenizer.py lines 31-55):
`prev` is -1 until a byte has been read, `ung` is the pushback flag. -/
structure BSW where
  prev : Int
  ung : Bool
  deriving Repr, DecidableEq

def BSW.init : BSW := { prev := -1, ung := false }

/-- `StreamWrapper.unget`: no-op if nothing read yet or already pushed back. -/
def BSW.doUnget (w : BSW) : BSW :=
  if w.prev = -1 ∨ w.ung then w else { w with ung := true }

/-- `StreamWrapper.__next__`: replay the pushed-back byte, else read one. -/
def BSW.next (w : BSW) (s : Src) : Option (Nat × BSW × Src) :=
  if w.ung then some (w.prev.toNat, { w with ung := false }, s)
  else
    match s.read1 with
    | some (b, s') => some (b, { prev := (b : Int), ung := false }, s')
    | none => none

def DELIMITERS : List Nat := [40, 41, 60, 62, 91, 93, 123, 125, 47, 37]
def WHITESPACES : List Nat := [0, 9, 10, 12, 13, 32]

def isDigitByte (c : Nat) : Bool := 48 ≤ c ∧ c ≤ 57
def isHexByte (c : Nat) : Bool :=
  (48 ≤ c ∧ c ≤ 57) ∨ (65 ≤ c ∧ c ≤ 70) ∨ (97 ≤ c ∧ c ≤ 102)
def isWordByte (c : Nat) : Bool :=
  (97 ≤ c ∧ c ≤ 122) ∨ (65 ≤ c ∧ c ≤ 90) ∨ c = 42

/-- Hex digit value (`bytes.fromhex`). -/
def hexVal (c : Nat) : Nat :=
  if 48 ≤ c ∧ c ≤ 57 then c - 48
  else if 65 ≤ c ∧ c ≤ 70 then c - 55
  else c - 87

/-- Decode a list of hex-digit bytes, pairwise MSB-first (`HexStringState`:
odd counts are padded on the right with `'0'` before decoding). -/
def hexDecode : List Nat → List Nat
  | [] => []
  | [hi] => [hexVal hi * 16 + hexVal 48]
  | hi :: lo :: rest => (hexVal hi * 16 + hexVal lo) :: hexDecode rest

/-- Tokenizer state (tokenizer.py `State` subclasses with their
accumulators). -/
inductive TState where
  | start
  | nameSt (cs : List Nat)
  | openDictOrHex
  | closeDictSt
  | stringSt (cs : List Nat) (esc : Bool) (escCr : Bool) (lparen : Int)
      (ddd : Option (List Nat))
  | comment (cr : Bool)
  | digit (cs : List Nat) (dot : Bool)
  | wordSt (cs : List Nat)
  | hexString (cs : List Nat)
  deriving Repr, DecidableEq

/-- Result of one `State.handle` call: next state, whether
`tokenizer.unget()` was called, emitted token, and whether a
`TokenError` was raised. -/
structure HandleRes where
  state : TState
  ung : Bool
  emit : Option Tok
  err : Bool
  deriving Repr, DecidableEq

def HandleRes.stay (st : TState) : HandleRes :=
  { state := st, ung := false, emit := none, err := false }

def HandleRes.emitTok (st : TState) (t : Tok) : HandleRes :=
  { state := st, ung := false, emit := some t, err := false }

def HandleRes.ungEmit (t : Tok) : HandleRes :=
  { state := .start, ung := true, emit := some t, err := false }

def HandleRes.fail : HandleRes :=
  { state := .start, ung := false, emit := none, err := true }

/-- `StringState._handle_esc` (tokenizer.py lines 232-258): returns the
updated accumulator, escape-CR flag and octal accumulator. -/
def handleEsc (cs : List Nat) (c : Nat) :
    List Nat × Bool × Option (List Nat) :=
  if c = 98 then (cs ++ [8], false, none)
  else if c = 102 then (cs ++ [12], false, none)
  else if c = 110 then (cs ++ [10], false, none)
  else if c = 114 then (cs ++ [13], false, none)
  else if c = 116 then (cs ++ [9], false, none)
  else if c = 40 then (cs ++ [40], false, none)
  else if c = 41 then (cs ++ [41], false, none)
  else if c = 92 then (cs ++ [92], false, none)
  else if c = 13 then (cs, true, none)
  else if c = 10 then (cs, false, none)
  else if isDigitByte c then (cs, false, some [c - 48])
  else (cs ++ [92, c], false, none)

/-- `StringState._handle_char` (tokenizer.py lines 260-274): returns the
updated accumulator, escape flag, parenthesis depth, and whether the
string token is to be emitted. -/
def handleChar (cs : List Nat) (lparen : Int) (c : Nat) :
    List Nat × Bool × Int × Bool :=
  if c = 40 then (cs ++ [c], false, lparen + 1, false)
  else if c = 41 then
    if lparen - 1 < 0 then (cs, false, lparen - 1, true)
    else (cs ++ [c], false, lparen - 1, false)
  else if c = 92 then (cs, true, lparen, false)
  else (cs ++ [c], false, lparen, false)

/-- `StringState.handle` (tokenizer.py lines 191-230). -/
def handleString (cs : List Nat) (esc escCr : Bool) (lparen : Int)
    (ddd : Option (List Nat)) (c : Nat) : HandleRes :=
  match ddd with
  | some ds =>
    if ds.length = 1 then
      if isDigitByte c then
        .stay (.stringSt cs esc escCr lparen (some (ds ++ [c - 48])))
      else
        { state := .stringSt (cs ++ [ds.getD 0 0]) esc escCr lparen none,
          ung := true, emit := none, err := false }
    else if ds.length = 2 then
      if isDigitByte c then
        .stay (.stringSt cs esc escCr lparen (some (ds ++ [c - 48])))
      else
        { state := .stringSt (cs ++ [ds.getD 0 0 * 8 + ds.getD 1 0]) esc escCr
            lparen none,
          ung := true, emit := none, err := false }
    else
      { state := .stringSt
          (cs ++ [ds.getD 0 0 * 64 + ds.getD 1 0 * 8 + ds.getD 2 0]) esc escCr
          lparen none,
        ung := true, emit := none, err := false }
  | none =>
    if esc then
      let (cs', escCr', ddd') := handleEsc cs c
      .stay (.stringSt cs' false escCr' lparen ddd')
    else if escCr then
      if c = 10 then .stay (.stringSt cs false false lparen none)
      else
        let (cs', esc', lparen', ret) := handleChar cs lparen c
        if ret then .emitTok .start (.string cs')
        else .stay (.stringSt cs' esc' false lparen' none)
    else
      let (cs', esc', lparen', ret) := handleChar cs lparen c
      if ret then .emitTok .start (.string cs')
      else .stay (.stringSt cs' esc' false lparen' none)

/-- `State.handle` dispatch for every tokenizer state (tokenizer.py). -/
def handle : TState → Nat → HandleRes
  | .start, c =>
    if c = 47 then .stay (.nameSt [47])
    else if c = 60 then .stay .openDictOrHex
    else if c = 62 then .stay .closeDictSt
    else if c = 91 then .emitTok .start .openArray
    else if c = 93 then .emitTok .start .closeArray
    else if c = 40 then .stay (.stringSt [] false false 0 none)
    else if c = 37 then .stay (.comment false)
    else if c = 43 ∨ c = 45 ∨ c = 46 ∨ isDigitByte c then
      .stay (.digit [c] (c = 46))
    else if c = 32 ∨ c = 13 ∨ c = 10 then .stay .start
    else .stay (.wordSt [c])
  | .nameSt cs, c =>
    if c ∈ DELIMITERS ∨ c ∈ WHITESPACES then .ungEmit (.name cs)
    else .stay (.nameSt (cs ++ [c]))
  | .openDictOrHex, c =>
    if c = 60 then .emitTok .start .openDict
    else if isHexByte c then .stay (.hexString [c])
    else if c = 62 then .emitTok .start (.string [])
    else .fail
  | .closeDictSt, c =>
    if c = 62 then .emitTok .start .closeDict else .fail
  | .stringSt cs esc escCr lparen ddd, c => handleString cs esc escCr lparen ddd c
  | .comment cr, c =>
    if c = 13 then .stay (.comment true)
    else if c = 10 then .stay .start
    else if cr then
      { state := .start, ung := true, emit := none, err := false }
    else .stay (.comment cr)
  | .digit cs dot, c =>
    if c = 46 then
      if dot then .emitTok (.digit [c] true) (.number cs)
      else .stay (.digit (cs ++ [c]) true)
    else if isDigitByte c then .stay (.digit (cs ++ [c]) dot)
    else .ungEmit (.number cs)
  | .wordSt cs, c =>
    if isWordByte c then .stay (.wordSt (cs ++ [c]))
    else .ungEmit (.word cs)
  | .hexString cs, c =>
    if isHexByte c then .stay (.hexString (cs ++ [c]))
    else if c = 62 then .emitTok .start (.string (hexDecode cs))
    else .fail

/-- Run the tokenizer until it emits one token (`PDFTokenizer.__iter__`,
one `yield`); `ok none` is end of input. -/
def nextToken : Nat → TState → BSW → Src →
    Except PyErr (Option (Tok × TState × BSW × Src))
  | 0, _, _, _ => .error .fuelOut
  | fuel + 1, st, w, s =>
    match w.next s with
    | none => .ok none
    | some (b, w', s') =>
      let r := handle st b
      if r.err then .error .tokenError
      else
        let w'' := if r.ung then w'.doUnget else w'
        match r.emit with
        | some t => .ok (some (t, r.state, w'', s'))
        | none => nextToken fuel r.state w'' s'

/-- Collect every token the tokenizer yields (`list(tokenizer)`); a
lexical error or fuel exhaustion truncates. -/
def tokenizeFrom : Nat → TState → BSW → Src → List Tok
  | 0, _, _, _ => []
  | fuel + 1, st, w, s =>
    match nextToken (fuel + 1) st w s with
    | .ok (some (t, st', w', s')) => t :: tokenizeFrom fuel st' w' s'
    | .ok none => []
    | .error _ => []

/-- Tokenize a byte string from a fresh tokenizer (`PDFTokenizer.create`). -/
def tokenize (fuel : Nat) (data : List Nat) : List Tok :=
  tokenizeFrom fuel .start .init { data := data, pos := 0 }

/-! ## base.py objects and parser.py : ObjectParser -/

/-- PDF value (base.py: `NullObject`, `BooleanObject`, `NumberObject`,
`StringObject`, `NameObject`, `ArrayObject`, `DictObject`,
`IndirectRef`).  `ref` stores the two popped stack values exactly as
`IndirectRef.__init__` does. -/
inductive PDFObj where
  | null
  | bool (b : Bool)
  | number (bs : List Nat)
  | string (bs : List Nat)
  | name (bs : List Nat)
  | array (arr : List PDFObj)
  | dict (d : List (List Nat × PDFObj))
  | ref (objNum genNum : PDFObj)
  deriving Repr

/-- Python `dict` assignment `d[k] = v`: overwrite in place, else append. -/
def dinsert {α β : Type} [DecidableEq α] : List (α × β) → α → β → List (α × β)
  | [], k, v => [(k, v)]
  | (k', v') :: rest, k, v =>
    if k' = k then (k, v) :: rest else (k', v') :: dinsert rest k v

/-- Python `dict` lookup `d[k]` / `k in d`. -/
def dlookup {α β : Type} [DecidableEq α] : List (α × β) → α → Option β
  | [], _ => none
  | (k', v') :: rest, k => if k' = k then some v' else dlookup rest k

/-- Dictionary construction in `ObjectParser.parse` on `CloseDictToken`:
`(name, value)` pairs from the container payload; a non-name key is a
`checked_cast` failure and a missing value an `IndexError`. -/
def buildDictPairs : List PDFObj → List (List Nat × PDFObj) →
    Except PyErr (List (List Nat × PDFObj))
  | [], acc => .ok acc
  | [k], _ =>
    match k with
    | .name _ => .error .indexError
    | _ => .error .typeError
  | k :: v :: rest, acc =>
    match k with
    | .name bs => buildDictPairs rest (dinsert acc bs v)
    | _ => .error .typeError

/-- Main loop of `ObjectParser.parse` (parser.py lines 469-531), pulling
tokens from the live tokenizer.  The container stack holds
`(is_dict, payload)` frames (the Python code marks each frame with its
opening-token sentinel).  The unmatched `assert False` branches of the
source are `assertionError`. -/
def parseLoop : Nat → TState → BSW → Src → List (Bool × List PDFObj) →
    Except PyErr (PDFObj × Src)
  | 0, _, _, _, _ => .error .fuelOut
  | fuel + 1, ts, w, s, stack =>
    match nextToken (fuel + 1) ts w s with
    | .error e => .error e
    | .ok none => .error .stopIteration
    | .ok (some (t, ts', w', s')) =>
      let attach := fun (stack' : List (Bool × List PDFObj)) (obj : PDFObj) =>
        match stack' with
        | [] => Except.ok (obj, s')
        | (b, objs) :: rest => parseLoop fuel ts' w' s' ((b, objs ++ [obj]) :: rest)
      match t with
      | .openDict => parseLoop fuel ts' w' s' ((true, []) :: stack)
      | .closeDict =>
        match stack with
        | [] => .error .indexError
        | (isD, objs) :: rest =>
          if isD then
            match buildDictPairs objs [] with
            | .error e => .error e
            | .ok d => attach rest (.dict d)
          else .error .assertionError
      | .openArray => parseLoop fuel ts' w' s' ((false, []) :: stack)
      | .closeArray =>
        match stack with
        | [] => .error .indexError
        | (isD, objs) :: rest =>
          if isD then .error .assertionError
          else attach rest (.array objs)
      | .string bs => attach stack (.string bs)
      | .number bs => attach stack (.number bs)
      | .name bs => attach stack (.name bs)
      | .word bs =>
        if bs = strBytes "true" then attach stack (.bool true)
        else if bs = strBytes "true" then attach stack (.bool false)
        else if bs = strBytes "null" then attach stack .null
        else if bs = strBytes "R" then
          match stack with
          | [] => .error .indexError
          | (b, objs) :: rest =>
            match objs.reverse with
            | genNum :: objNum :: kept =>
              parseLoop fuel ts' w' s'
                ((b, kept.reverse ++ [PDFObj.ref objNum genNum]) :: rest)
            | _ => .error .indexError
        else .error .assertionError

/-- `PDFParser.read_object` (parser.py lines 359-361): a fresh tokenizer
over the byte source, then `ObjectParser.parse`. -/
def readObject (fuel : Nat) (s : Src) : Except PyErr (PDFObj × Src) :=
  parseLoop fuel .start .init s []

/-! ## parser.py : lines, numbers, document state -/

/-- Digit-string to `Nat`; `none` when empty or a non-digit appears. -/
def parseDigits : List Nat → Option Nat
  | [] => none
  | cs => go cs 0
where
  go : List Nat → Nat → Option Nat
    | [], acc => some acc
    | c :: rest, acc =>
      if isDigitByte c then go rest (acc * 10 + (c - 48)) else none

/-- Python `int(bs)` on a byte string: optional sign then digits. -/
def intOfBytes : List Nat → Except PyErr Int
  | 43 :: rest =>
    match parseDigits rest with
    | some n => .ok (n : Int)
    | none => .error .valueError
  | 45 :: rest =>
    match parseDigits rest with
    | some n => .ok (-(n : Int))
    | none => .error .valueError
  | bs =>
    match parseDigits bs with
    | some n => .ok (n : Int)
    | none => .error .valueError

/-- Fractional part: digits after the decimal point as a rational. -/
def fracOfDigits : List Nat → Option ℚ
  | [] => some 0
  | cs => go cs 0 1
where
  go : List Nat → ℚ → ℚ → Option ℚ
    | [], acc, _ => some acc
    | c :: rest, acc, scale =>
      if isDigitByte c then
        go rest (acc + ((c - 48 : Nat) : ℚ) / (10 * scale)) (10 * scale)
      else none

/-- Python `float(bs)` restricted to the shapes the tokenizer can emit:
optional sign, digits, at most one dot, at least one digit. -/
def floatOfBytes (bs : List Nat) : Except PyErr ℚ :=
  let core : List Nat → Except PyErr ℚ := fun cs =>
    match cs.splitOn 46 with
    | [ip] =>
      match parseDigits ip with
      | some n => .ok (n : ℚ)
      | none => .error .valueError
    | [ip, fp] =>
      if ip = [] ∧ fp = [] then .error .valueError
      else
        match (if ip = [] then some 0 else parseDigits ip),
            fracOfDigits fp with
        | some n, some f => .ok ((n : ℚ) + f)
        | _, _ => .error .valueError
    | _ => .error .valueError
  match bs with
  | 43 :: rest => core rest
  | 45 :: rest => (core rest).map (-·)
  | _ => core bs

/-- `NumberObject.value` (base.py lines 120-125): float when the source
bytes contain a dot, else int. -/
def numValueQ (bs : List Nat) : Except PyErr ℚ :=
  if 46 ∈ bs then floatOfBytes bs else (intOfBytes bs).map (fun n => (n : ℚ))

/-- Integer taken for `seek(length, SEEK_CUR)`: a float `/Length` would
make `seek` raise `TypeError` in Python, which this maps to directly. -/
def lengthOfNumber (bs : List Nat) : Except PyErr Int :=
  if 46 ∈ bs then .error .typeError else intOfBytes bs

/-- `PDFParser.readline` loop body (parser.py lines 414-432): returns the
collected line and the number of bytes consumed. -/
def readlineAux : List Nat → Bool → List Nat → List Nat × Nat
  | [], _, acc => (acc.reverse, 0)
  | c :: rest, cr, acc =>
    if c = 10 then (acc.reverse, 1)
    else if c = 13 then
      let (l, n) := readlineAux rest true acc
      (l, n + 1)
    else if cr then (acc.reverse, 0)
    else
      let (l, n) := readlineAux rest cr (c :: acc)
      (l, n + 1)

/-- `PDFParser.readline` (parser.py lines 414-432). -/
def readline (s : Src) : List Nat × Src :=
  let (l, n) := readlineAux (s.data.drop s.pos) false []
  (l, { s with pos := s.pos + n })

/-- Python `bytes.split()` with no separator: split on runs of ASCII
whitespace, dropping empty fields. -/
def splitWs (bs : List Nat) : List (List Nat) :=
  (bs.splitOnP (fun c => c = 9 ∨ c = 10 ∨ c = 11 ∨ c = 12 ∨ c = 13 ∨ c = 32)).filter
    (· ≠ [])

/-- `PDFParser.read_obj_line` (parser.py lines 389-393): expects
`<obj_num> <gen_num> obj` on one line. -/
def readObjLine (s : Src) : Except PyErr ((Int × Int) × Src) :=
  let (line, s') := readline s
  match splitWs line with
  | [a, b, c] =>
    if c = strBytes "obj" then
      match intOfBytes a, intOfBytes b with
      | .ok n, .ok g => .ok ((n, g), s')
      | _, _ => .error .valueError
    else .error .assertionError
  | _ => .error .valueError

/-- Xref entry (tokenizer.py `XrefEntry` named tuple: byte strings). -/
structure XrefEntry where
  byteOffset : List Nat
  genNumber : List Nat
  kw : List Nat
  deriving Repr, DecidableEq

/-- Indirect or stream object (base.py `IndirectObject`, `StreamObject`). -/
inductive IObj where
  | indirect (objNum genNum : Int) (obj : PDFObj)
  | streamObj (objNum genNum : Int) (obj : PDFObj) (start : Nat) (length : Int)
  deriving Repr

/-- The `.object` attribute shared by both classes. -/
def IObj.object : IObj → PDFObj
  | .indirect _ _ o => o
  | .streamObj _ _ o _ _ => o

/-- Mutable state of `PDFDocument`/`PDFParser` that the dereferencing
code touches: the byte source, the `_offsets` stack (head = top), the
`_obj_by_num` cache and the xref table. -/
structure DocState where
  src : Src
  offsets : List Nat
  cache : List (Int × IObj)
  xref : List (Int × XrefEntry)
  deriving Repr

/-- Python exceptions propagate with the mutations made so far, so the
error case carries the document state at the raise point. -/
abbrev DR (α : Type) := Except (PyErr × DocState) (α × DocState)

/-- `seek(offset)` with `SEEK_SET`: negative offsets raise. -/
def seekSet (off : Int) (s : Src) : Except PyErr Src :=
  if off < 0 then .error .valueError else .ok { s with pos := off.toNat }

/-- `PDFDocument._read_endobj_word` (parser.py lines 190-194): one line,
read again when empty. -/
def readEndobjWord (st : DocState) : List Nat × DocState :=
  let r1 := readline st.src
  if r1.1 = [] then
    let r2 := readline r1.2
    (r2.1, { st with src := r2.2 })
  else (r1.1, { st with src := r1.2 })

/-- `NumberObject.value` access through an attribute that only
`NumberObject` has; float object numbers are not modelled. -/
def pdfObjNumValue : PDFObj → Except PyErr Int := fun o =>
  match o with
  | .number bs => if 46 ∈ bs then .error .typeError else intOfBytes bs
  | _ => .error .exception

/-- `IndirectRef.obj_num` (base.py lines 137-139). -/
def refObjNum : PDFObj → Except PyErr Int
  | .ref o _ => pdfObjNumValue o
  | _ => .error .exception

/-- Epilogue of `read_indirect_object` (parser.py lines 186-188):
`byte_offset = self._offsets.pop(); self.parser.seek(byte_offset)`. -/
def popSeek (st : DocState) (iobj : IObj) : DR IObj :=
  match st.offsets with
  | [] => .error (.indexError, st)
  | p :: rest =>
    .ok (iobj, { st with src := { st.src with pos := p }, offsets := rest })

mutual

/-- `PDFDocument.read_indirect_object` (parser.py lines 170-188). -/
def readIndirectObject : Nat → DocState → Int → DR IObj
  | 0, st, _ => .error (.fuelOut, st)
  | fuel + 1, st0, byteOffset =>
    let st1 : DocState := { st0 with offsets := st0.src.pos :: st0.offsets }
    match seekSet byteOffset st1.src with
    | .error e => .error (e, st1)
    | .ok src2 =>
      let st2 := { st1 with src := src2 }
      match readObjLine st2.src with
      | .error e => .error (e, st2)
      | .ok ((objNum, genNum), src3) =>
        let st3 := { st2 with src := src3 }
        match readObject (fuel + 1) st3.src with
        | .error e => .error (e, st3)
        | .ok (obj, src4) =>
          let st4 := { st3 with src := src4 }
          let ew := readEndobjWord st4
          if ew.1 = strBytes "stream" then
            match readStreamPart fuel ew.2 obj with
            | .error es => .error es
            | .ok (sl, st6) =>
              popSeek st6 (.streamObj objNum genNum obj sl.1 sl.2)
          else if ew.1 = strBytes "endobj" then
            popSeek ew.2 (.indirect objNum genNum obj)
          else .error (.exception, ew.2)

/-- `PDFDocument._read_stream` (parser.py lines 196-210). -/
def readStreamPart : Nat → DocState → PDFObj → DR (Nat × Int)
  | 0, st, _ => .error (.fuelOut, st)
  | fuel + 1, st, obj =>
    let start := st.src.pos
    match obj with
    | .dict d =>
      match dlookup d (strBytes "/Length") with
      | none => .error (.keyError, st)
      | some lengthRef =>
        match getObject fuel st lengthRef with
        | .error es => .error es
        | .ok (lenObj, st1) =>
          match lenObj with
          | .number bs =>
            match lengthOfNumber bs with
            | .error e => .error (e, st1)
            | .ok len =>
              if (st1.src.pos : Int) + len < 0 then .error (.valueError, st1)
              else
                let st2 := { st1 with
                  src := { st1.src with pos := ((st1.src.pos : Int) + len).toNat } }
                let ew := readEndobjWord st2
                if ew.1 = strBytes "endstream" then
                  let r4 := readline ew.2.src
                  let st4 := { ew.2 with src := r4.2 }
                  if r4.1 = strBytes "endobj" then .ok ((start, len), st4)
                  else .error (.exception, st4)
                else .error (.exception, ew.2)
          | _ => .error (.typeError, st1)
    | _ => .error (.typeError, st)

/-- `PDFDocument.get_object` (parser.py lines 96-106). -/
def getObject : Nat → DocState → PDFObj → DR PDFObj
  | 0, st, _ => .error (.fuelOut, st)
  | fuel + 1, st, obj =>
    match obj with
    | .ref o g => derefObject fuel st (.ref o g)
    | _ => .ok (obj, st)

/-- `PDFDocument.deref_object` (parser.py lines 108-112): a `KeyError`
from `_get_indirect_object` is caught and replaced by the null object. -/
def derefObject : Nat → DocState → PDFObj → DR PDFObj
  | 0, st, _ => .error (.fuelOut, st)
  | fuel + 1, st, r =>
    match getIndirectObject fuel st r with
    | .ok (iobj, st') => .ok (iobj.object, st')
    | .error (.keyError, stE) => .ok (.null, stE)
    | .error es => .error es

/-- `PDFDocument._get_indirect_object` (parser.py lines 157-168): cache
lookup by object number, else xref lookup (a missing entry raises
`KeyError`), read, then cache. -/
def getIndirectObject : Nat → DocState → PDFObj → DR IObj
  | 0, st, _ => .error (.fuelOut, st)
  | fuel + 1, st, r =>
    match refObjNum r with
    | .error e => .error (e, st)
    | .ok n =>
      match dlookup st.cache n with
      | some iobj => .ok (iobj, st)
      | none =>
        match dlookup st.xref n with
        | none => .error (.keyError, st)
        | some entry =>
          match intOfBytes entry.byteOffset with
          | .error e => .error (e, st)
          | .ok off =>
            match readIndirectObject fuel st off with
            | .error es => .error es
            | .ok (iobj, st') =>
              .ok (iobj, { st' with cache := dinsert st'.cache n iobj })

end

/-! ## parser.py : xref merge through the /Prev chain -/

/-- `PDFParser.get_xref_table` (parser.py lines 318-347) fills
`entry_by_ref_num[i] = XrefEntry(...)` in subsection order; a section is
modelled by that write sequence, the resulting Python dict by folding
the writes. -/
def buildXrefDict (writes : List (Int × XrefEntry)) : List (Int × XrefEntry) :=
  writes.foldl (fun d kv => dinsert d kv.1 kv.2) []

/-- Merge step of `parse_document` (parser.py lines 312-315): for each
item of the older table, fill only object numbers not already present. -/
def mergeOther (table other : List (Int × XrefEntry)) : List (Int × XrefEntry) :=
  other.foldl
    (fun t kv => if (dlookup t kv.1).isSome then t else dinsert t kv.1 kv.2)
    table

/-- The `/Prev` loop of `parse_document` (parser.py lines 303-315): the
first section is the newest; every further section of the chain is
merged into the running table. -/
def mergePrevChain (newest : List (Int × XrefEntry))
    (others : List (List (Int × XrefEntry))) : List (Int × XrefEntry) :=
  others.foldl (fun t sec => mergeOther t (buildXrefDict sec)) (buildXrefDict newest)

/-- First `some`. -/
def optOr {α : Type} : Option α → Option α → Option α
  | some a, _ => some a
  | none, b => b

/-- Entry of the newest section of the chain that mentions `n`. -/
def newestEntry (sections : List (List (Int × XrefEntry))) (n : Int) :
    Option XrefEntry :=
  match sections with
  | [] => none
  | s :: rest => optOr (dlookup (buildXrefDict s) n) (newestEntry rest n)

/-! ## parser.py : stream window -/

def BUF_SIZE : Nat := 40

/-- `stream.read(n)`: at most `n` bytes from the current position. -/
def readN (s : Src) (n : Nat) : List Nat × Src :=
  let chunk := (s.data.drop s.pos).take n
  (chunk, { s with pos := s.pos + chunk.length })

/-- Number of iterations of Python `range(0, stop, step)` for `step > 0`. -/
def pyRangeCount (stop : Int) (step : Nat) : Nat :=
  if stop ≤ 0 then 0 else (stop - 1).toNat / step + 1

/-- `k` successive reads of `BUF_SIZE` bytes. -/
def readChunks : Nat → Src → List (List Nat) × Src
  | 0, s => ([], s)
  | k + 1, s =>
    let (c, s') := readN s BUF_SIZE
    let (cs, s'') := readChunks k s'
    (c :: cs, s'')

/-- `PDFParser.stream_window` with no encrypter followed by
`_stream_window` (parser.py lines 398-412): seek to `start`, read
`BUF_SIZE` bytes for each `i in range(0, length - BUF_SIZE, BUF_SIZE)`,
then read `length % BUF_SIZE` bytes. -/
def streamWindow (s : Src) (start length : Nat) : List (List Nat) :=
  let s0 : Src := { s with pos := start }
  let (cs, s1) := readChunks (pyRangeCount ((length : Int) - (BUF_SIZE : Int)) BUF_SIZE) s0
  let (last, _) := readN s1 (length % BUF_SIZE)
  cs ++ [last]

/-! ## pdf_operation.py / pdf_operator.py : operations and operator table -/

/-- Text matrix (base.py `TextMatrix`), six scalars over ℚ. -/
structure TM where
  a : ℚ
  b : ℚ
  c : ℚ
  d : ℚ
  e : ℚ
  f : ℚ
  deriving Repr, DecidableEq

def TM.identityM : TM := ⟨1, 0, 0, 1, 0, 0⟩

/-- `TextMatrix.shift` (base.py lines 234-237). -/
def TM.shiftM (m : TM) (w h : ℚ) : TM :=
  { m with e := m.e + w * m.a + h * m.c, f := m.f + w * m.b + h * m.d }

/-- Content-stream operations (pdf_operation.py).  Operators whose
`build` stores raw queue elements keep `Option Tok` fields; operators
that `checked_cast` to `NumberObject` and take `.value` store ℚ. -/
inductive Operation where
  | saveCurGraphicsState
  | restoreCurGraphicsState
  | modifyCTM (a b c d e f : ℚ)
  | setLineWidth (width : ℚ)
  | setLineCap (cap : ℚ)
  | setLineJoin (join : Option Tok)
  | setMiterLimit (miterLimit : Option Tok)
  | setLineDashPattern (dashArray : List Tok) (dashPhase : Option Tok)
  | setColourRenderingIntent (intent : Option Tok)
  | setFlatnessTolerance (flatness : Option Tok)
  | setParameters (dictName : Option Tok)
  | beginSubpath (x y : Option Tok)
  | appendStraightLine (x y : Option Tok)
  | appendCubicBezier1 (x1 y1 x2 y2 x3 y3 : Option Tok)
  | appendCubicBezier2 (x2 y2 x3 y3 : Option Tok)
  | appendCubicBezier3 (x1 y1 x3 y3 : Option Tok)
  | closePath
  | appendRectangle (x y w h : Option Tok)
  | strokePath
  | beginText
  | endText
  | moveStartNextLine (tx ty : ℚ)
  | setTextLeading (leading : ℚ)
  | setTextMatrix (tm : TM)
  | moveStartNextLineWoParams
  | showTextString (bs : List Nat)
  | updateTextMatrix (w : ℚ)
  | setCharSpacing (charSpace : ℚ)
  | setWordSpacing (wordSpace : ℚ)
  | setHorizScaling (scale : ℚ)
  | setFont (name : List Nat) (size : ℚ)
  | setTextRise (rise : ℚ)
  deriving Repr, DecidableEq

/-- `TokenQueue.shift` (pdf_operator.py lines 42-47): `None` on empty. -/
def qshift (q : List Tok) : Option Tok × List Tok := (q.head?, q.tail)

/-- `TokenQueue.shift_n` (pdf_operator.py lines 60-72): pad with `None`
or truncate to exactly `n`, then clear the queue. -/
def qshiftN (n : Nat) (q : List Tok) : List (Option Tok) :=
  if q.length = n then q.map some
  else if q.length < n then q.map some ++ List.replicate (n - q.length) none
  else (q.take n).map some

def nthOf (l : List (Option Tok)) (i : Nat) : Option Tok := (l.get? i).join

/-- Loop of `TokenQueue.shift_arr`: collect until `CloseArrayToken` or
an empty queue. -/
def qshiftArrAux : List Tok → List Tok × List Tok
  | [] => ([], [])
  | t :: rest =>
    if t = .closeArray then ([], rest)
    else
      let (c, r) := qshiftArrAux rest
      (t :: c, r)

/-- `TokenQueue.shift_arr` (pdf_operator.py lines 49-58): the first
shifted token (the expected open-array) is consumed unconditionally. -/
def qshiftArr (q : List Tok) : List Tok × List Tok :=
  match q with
  | [] => ([], [])
  | _ :: rest => qshiftArrAux rest

/-- `checked_cast(NumberObject, t).value` on a queue element. -/
def ccNumberVal (t : Option Tok) : Except PyErr ℚ :=
  match t with
  | some (.number bs) => numValueQ bs
  | _ => .error .typeError

/-- `checked_cast(NameObject, t).bs` on a queue element. -/
def ccNameBs (t : Option Tok) : Except PyErr (List Nat) :=
  match t with
  | some (.name bs) => .ok bs
  | _ => .error .typeError

/-- `checked_cast(StringObject, t).bs` on a queue element. -/
def ccStringBs (t : Option Tok) : Except PyErr (List Nat) :=
  match t with
  | some (.string bs) => .ok bs
  | _ => .error .typeError

/-- Loop of `ShowTextStringsOperator.build` (pdf_operator.py lines
322-333): strings become `ShowTextString`, numbers `UpdateTextMatrix`
(whose `.value` may raise), anything else is skipped with a warning. -/
def buildTJOps : List Tok → Except PyErr (List Operation)
  | [] => .ok []
  | t :: rest =>
    match t with
    | .string bs =>
      match buildTJOps rest with
      | .error e => .error e
      | .ok ops => .ok (.showTextString bs :: ops)
    | .number bs =>
      match numValueQ bs with
      | .error e => .error e
      | .ok v =>
        match buildTJOps rest with
        | .error e => .error e
        | .ok ops => .ok (.updateTextMatrix v :: ops)
    | _ => buildTJOps rest

/-- An `Operator.build` call: operations yielded plus the queue left
behind. -/
abbrev OpBuilder := List Tok → Except PyErr (List Operation × List Tok)

/-- `operator_by_token_bytes` (pdf_operator.py lines 499-603) with each
operator's `build` method inlined.  Classes inheriting the base
`Operator.build` clear the queue and yield nothing. -/
def operatorByTokenBytes (w : List Nat) : Option OpBuilder :=
  -- Table 57 – Graphics State Operators
  if w = strBytes "q" then some (fun _ => .ok ([.saveCurGraphicsState], []))
  else if w = strBytes "Q" then some (fun _ => .ok ([.restoreCurGraphicsState], []))
  else if w = strBytes "cm" then some (fun q => do
    let l := qshiftN 6 q
    let a ← ccNumberVal (nthOf l 0)
    let b ← ccNumberVal (nthOf l 1)
    let c ← ccNumberVal (nthOf l 2)
    let d ← ccNumberVal (nthOf l 3)
    let e ← ccNumberVal (nthOf l 4)
    let f ← ccNumberVal (nthOf l 5)
    return ([.modifyCTM a b c d e f], []))
  else if w = strBytes "w" then some (fun q => do
    let (t, q') := qshift q
    let width ← ccNumberVal t
    return ([.setLineWidth width], q'))
  else if w = strBytes "J" then some (fun q => do
    let (t, q') := qshift q
    let cap ← ccNumberVal t
    return ([.setLineCap cap], q'))
  else if w = strBytes "j" then some (fun q =>
    let (t, q') := qshift q
    .ok ([.setLineJoin t], q'))
  else if w = strBytes "M" then some (fun q =>
    let (t, q') := qshift q
    .ok ([.setMiterLimit t], q'))
  else if w = strBytes "d" then some (fun q =>
    let (arr, q') := qshiftArr q
    let (t, q'') := qshift q'
    .ok ([.setLineDashPattern arr t], q''))
  else if w = strBytes "ri" then some (fun q =>
    let (t, q') := qshift q
    .ok ([.setColourRenderingIntent t], q'))
  else if w = strBytes "i" then some (fun q =>
    let (t, q') := qshift q
    .ok ([.setFlatnessTolerance t], q'))
  else if w = strBytes "gs" then some (fun q =>
    let (t, q') := qshift q
    .ok ([.setParameters t], q'))
  -- Table 59 – Path Construction Operators
  else if w = strBytes "m" then some (fun q =>
    let l := qshiftN 2 q
    .ok ([.beginSubpath (nthOf l 0) (nthOf l 1)], []))
  else if w = strBytes "l" then some (fun q =>
    let l := qshiftN 2 q
    .ok ([.appendStraightLine (nthOf l 0) (nthOf l 1)], []))
  else if w = strBytes "c" then some (fun q =>
    let l := qshiftN 6 q
    .ok ([.appendCubicBezier1 (nthOf l 0) (nthOf l 1) (nthOf l 2) (nthOf l 3)
      (nthOf l 4) (nthOf l 5)], []))
  else if w = strBytes "v" then some (fun q =>
    let l := qshiftN 4 q
    .ok ([.appendCubicBezier2 (nthOf l 0) (nthOf l 1) (nthOf l 2) (nthOf l 3)], []))
  else if w = strBytes "y" then some (fun q =>
    let l := qshiftN 4 q
    .ok ([.appendCubicBezier3 (nthOf l 0) (nthOf l 1) (nthOf l 2) (nthOf l 3)], []))
  else if w = strBytes "h" then some (fun _ => .ok ([.closePath], []))
  else if w = strBytes "re" then some (fun q =>
    let l := qshiftN 4 q
    .ok ([.appendRectangle (nthOf l 0) (nthOf l 1) (nthOf l 2) (nthOf l 3)], []))
  -- Table 60 – Path-Painting Operators
  else if w = strBytes "S" then some (fun _ => .ok ([.strokePath], []))
  else if w = strBytes "s" then some (fun _ => .ok ([.closePath, .strokePath], []))
  else if w = strBytes "f" ∨ w = strBytes "F" ∨ w = [102, 42] ∨ w = strBytes "B"
      ∨ w = [66, 42] ∨ w = strBytes "b" ∨ w = [98, 42] ∨ w = strBytes "n" then
    some (fun _ => .ok ([], []))
  -- Table 61 – Clipping Path Operators
  else if w = strBytes "W" ∨ w = [87, 42] then some (fun _ => .ok ([], []))
  -- Table 107 – Text object operators
  else if w = strBytes "BT" then some (fun _ => .ok ([.beginText], []))
  else if w = strBytes "ET" then some (fun _ => .ok ([.endText], []))
  -- Table 108 – Text-positioning operators
  else if w = strBytes "Td" then some (fun q => do
    let l := qshiftN 2 q
    let tx ← ccNumberVal (nthOf l 0)
    let ty ← ccNumberVal (nthOf l 1)
    return ([.moveStartNextLine tx ty], []))
  else if w = strBytes "TD" then some (fun q => do
    let l := qshiftN 2 q
    let tx ← ccNumberVal (nthOf l 0)
    let ty ← ccNumberVal (nthOf l 1)
    return ([.setTextLeading (-ty), .moveStartNextLine tx ty], []))
  else if w = strBytes "Tm" then some (fun q => do
    let l := qshiftN 6 q
    let a ← ccNumberVal (nthOf l 0)
    let b ← ccNumberVal (nthOf l 1)
    let c ← ccNumberVal (nthOf l 2)
    let d ← ccNumberVal (nthOf l 3)
    let e ← ccNumberVal (nthOf l 4)
    let f ← ccNumberVal (nthOf l 5)
    return ([.setTextMatrix ⟨a, b, c, d, e, f⟩], []))
  else if w = [84, 42] then some (fun _ => .ok ([.moveStartNextLineWoParams], []))
  -- Table 109 – Text-showing operators
  else if w = strBytes "Tj" then some (fun q => do
    let (t, q') := qshift q
    let bs ← ccStringBs t
    return ([.showTextString bs], q'))
  else if w = [39] then some (fun q => do
    let (t, q') := qshift q
    let bs ← ccStringBs t
    return ([.moveStartNextLineWoParams, .showTextString bs], q'))
  else if w = [34] then some (fun q => do
    let (t1, q1) := qshift q
    let aw ← ccNumberVal t1
    let (t2, q2) := qshift q1
    let ac ← ccNumberVal t2
    let (t3, q3) := qshift q2
    let bs ← ccStringBs t3
    return ([.setWordSpacing aw, .setCharSpacing ac, .moveStartNextLineWoParams,
      .showTextString bs], q3))
  else if w = strBytes "TJ" then some (fun q => do
    let (arr, q') := qshiftArr q
    let ops ← buildTJOps arr
    return (ops, q'))
  -- Table 113 – Type 3 font operators
  else if w = strBytes "d0" ∨ w = strBytes "d1" then some (fun _ => .ok ([], []))
  -- Table 74 – Colour Operators
  else if w = strBytes "CS" ∨ w = strBytes "cs" ∨ w = strBytes "SC"
      ∨ w = strBytes "SCN" ∨ w = strBytes "sc" ∨ w = strBytes "scn"
      ∨ w = strBytes "G" ∨ w = strBytes "g" ∨ w = strBytes "RG"
      ∨ w = strBytes "rg" ∨ w = strBytes "K" ∨ w = strBytes "k" then
    some (fun _ => .ok ([], []))
  -- Table 77 – Shading Operator, Table 92 – Inline Image Operators,
  -- Table 87 – XObject Operator, Table 320 – Marked-content operators,
  -- Table 32 – Compatibility operators
  else if w = strBytes "sh" ∨ w = strBytes "BI" ∨ w = strBytes "ID"
      ∨ w = strBytes "EI" ∨ w = strBytes "Do" ∨ w = strBytes "MP"
      ∨ w = strBytes "DP" ∨ w = strBytes "BMC" ∨ w = strBytes "BDC"
      ∨ w = strBytes "EMC" ∨ w = strBytes "BX" ∨ w = strBytes "EX" then
    some (fun _ => .ok ([], []))
  -- Table 105 – Text state operators
  else if w = strBytes "Tc" then some (fun q => do
    let (t, q') := qshift q
    let cspace ← ccNumberVal t
    return ([.setCharSpacing cspace], q'))
  else if w = strBytes "Tw" then some (fun q => do
    let (t, q') := qshift q
    let wspace ← ccNumberVal t
    return ([.setWordSpacing wspace], q'))
  else if w = strBytes "Tz" then some (fun q => do
    let (t, q') := qshift q
    let scale ← ccNumberVal t
    return ([.setHorizScaling scale], q'))
  else if w = strBytes "TL" then some (fun q => do
    let (t, q') := qshift q
    let leading ← ccNumberVal t
    return ([.setTextLeading leading], q'))
  else if w = strBytes "Tf" then some (fun q => do
    let (t1, q1) := qshift q
    let font ← ccNameBs t1
    let (t2, q2) := qshift q1
    let size ← ccNumberVal t2
    return ([.setFont font size], q2))
  else if w = strBytes "Tr" then some (fun _ => .ok ([], []))
  else if w = strBytes "Ts" then some (fun q => do
    let (t, q') := qshift q
    let rise ← ccNumberVal t
    return ([.setTextRise rise], q'))
  else none

/-! ## content_parser.py : ContentParser.parse_content -/

/-- `ContentParser.parse_content` (content_parser.py lines 31-46): word
tokens are looked up in the operator table (a missing mnemonic is a
logged warning, the queue keeps its contents); any other exception from
`build` propagates.  Non-word tokens are pushed onto the queue. -/
def parseContentAux : List Tok → List Tok → Except PyErr (List Operation)
  | [], _ => .ok []
  | t :: ts, q =>
    match t with
    | .word w =>
      match operatorByTokenBytes w with
      | none => parseContentAux ts q
      | some build =>
        match build q with
        | .error e => .error e
        | .ok (ops, q') =>
          match parseContentAux ts q' with
          | .error e => .error e
          | .ok rest => .ok (ops ++ rest)
    | _ => parseContentAux ts (q ++ [t])

def parseContent (ts : List Tok) : Except PyErr (List Operation) :=
  parseContentAux ts []

/-! ## font_parser.py / tool.py : fonts, text state, text extraction -/

/-- Modelled from the spec: `pdf_encodings.STD_ENCODING` is a static
data resource that is not part of the source files; §6 of the spec
fixes only its shape (a 256-slot code→Unicode-string map, identity on
the ASCII letters, digits and space used by the seed scenarios). -/
def STD_ENCODING : Nat → Option String := fun c =>
  if (48 ≤ c ∧ c ≤ 57) ∨ (65 ≤ c ∧ c ≤ 90) ∨ (97 ≤ c ∧ c ≤ 122) ∨ c = 32 then
    some (Char.ofNat c).toString
  else none

/-- `Font` (font_parser.py lines 30-48). -/
structure FontM where
  encoding : Nat → Option String
  widths : List (Nat × ℚ)
  missingWidth : ℚ

/-- `Font.get_pos_width` (font_parser.py lines 41-42). -/
def FontM.getPosWidth (f : FontM) (i : Nat) : ℚ :=
  (dlookup f.widths i).getD f.missingWidth

/-- `Font.get_space_width` = `get_char_width(" ")` (font_parser.py
lines 36-39). -/
def FontM.getSpaceWidth (f : FontM) : ℚ := f.getPosWidth 32

/-- `TextState` (parser.py lines 534-602). -/
structure TextStateM where
  textLeading : ℚ
  textFontSize : ℚ
  horizontalScaling : ℚ
  textRise : ℚ
  charSpace : ℚ
  wordSpace : ℚ
  tm : TM
  tlm : TM
  lastX : Option ℚ
  lastY : Option ℚ
  deriving Repr, DecidableEq

/-- `TextState.__init__`. -/
def TextStateM.init : TextStateM :=
  ⟨0, 0, 100, 0, 0, 0, TM.identityM, TM.identityM, none, none⟩

/-- Text element (base.py `Text`, `NewText`, `NewPage`). -/
inductive TextElem where
  | newPage
  | newText
  | text (s : String) (x y width height fontSize fontSpaceWidth : ℚ)
  deriving Repr, DecidableEq

/-- `TextExtractor._get_width` (tool.py lines 165-173). -/
def getWidth (ts : TextStateM) (font : FontM) (bs : List Nat) : ℚ :=
  let spaceCount : ℚ := ((bs.filter (fun i => i = 32)).length : ℚ)
  ((bs.map font.getPosWidth).sum + ts.charSpace * ((bs.length : ℚ) - 1) * 1000
      + ts.wordSpace * spaceCount * 1000) * (ts.horizontalScaling / 100)

/-- Python `"".join(encoding.get(y, u\x2bFFFD) for y in bs if y)`
(tool.py lines 97-100). -/
def decodeText (enc : Nat → Option String) (bs : List Nat) : String :=
  String.join ((bs.filter (fun y => y ≠ 0)).map (fun y => (enc y).getD "�"))

/-- Python `int()` on a rational: truncation toward zero. -/
def pyTrunc (x : ℚ) : Int := if 0 ≤ x then ⌊x⌋ else -⌊-x⌋

/-- Python `" " * n`. -/
def pySpaces (n : Int) : String :=
  String.mk (List.replicate n.toNat ' ')

/-- Python `sep.join(list(text))`: characters joined by `sep`. -/
def pyJoinChars (sep : String) (s : String) : String :=
  String.intercalate sep (s.data.map (fun c => c.toString))

/-- Main loop of `TextExtractor._execute_page` (tool.py lines 75-163)
over the already-built operation list; the loop-local `font` and
`encoding` variables are threaded explicitly, `self.text_state` is the
state record.  `self.document.get_font` (parser.py lines 264-265) is a
lookup in the page's font table with the `Font(STD_ENCODING, {}, 0.0)`
default. -/
def executeOps (fontTable : List (List Nat × FontM)) :
    List Operation → TextStateM → FontM → (Nat → Option String) → List TextElem
  | [], _, _, _ => []
  | op :: rest, ts, font, enc =>
    match op with
    | .setFont name size =>
      let font' := (dlookup fontTable name).getD ⟨STD_ENCODING, [], 0⟩
      executeOps fontTable rest { ts with textFontSize := size } font' font'.encoding
    | .setTextRise r => executeOps fontTable rest { ts with textRise := r } font enc
    | .setHorizScaling sc =>
      executeOps fontTable rest { ts with horizontalScaling := sc } font enc
    | .setCharSpacing c => executeOps fontTable rest { ts with charSpace := c } font enc
    | .setWordSpacing v => executeOps fontTable rest { ts with wordSpace := v } font enc
    | .showTextString bs =>
      let text := decodeText enc bs
      let x := ts.tm.e
      let y := ts.tm.f
      let fontSize := ts.tm.a
      let w := getWidth ts font bs
      let fsw := font.getSpaceWidth
      let cspace := 1000 * ts.charSpace
      let text1 :=
        if 0 < fsw ∧ fsw < cspace then
          pyJoinChars (pySpaces (pyTrunc (cspace / fsw))) text
        else text
      let deltaY := match ts.lastY with | none => 0 | some ly => y - ly
      let separators : List TextElem :=
        if |deltaY| > fontSize then [.newText]
        else
          let deltaX := match ts.lastX with | none => 0 | some lx => x - lx
          if fontSize ≠ 0 then
            let temp := deltaX * 1000 / fontSize
            if 0 < fsw ∧ fsw < temp then [.newText] else []
          else []
      let tm' := ts.tm.shiftM (w / 1000) 0
      let width := tm'.e - x
      let elem := TextElem.text text1 x y width 0 fontSize fsw
      let ts' := { ts with tm := tm', lastX := some tm'.e, lastY := some tm'.f }
      separators ++ elem :: executeOps fontTable rest ts' font enc
    | .moveStartNextLine tx ty =>
      let tlm' := ts.tlm.shiftM tx ty
      executeOps fontTable rest { ts with tlm := tlm', tm := tlm' } font enc
    | .setTextMatrix m =>
      executeOps fontTable rest { ts with tlm := m, tm := m } font enc
    | .updateTextMatrix wq =>
      executeOps fontTable rest { ts with tm := ts.tm.shiftM (-wq / 1000) 0 } font enc
    | .moveStartNextLineWoParams =>
      let tlm' := ts.tlm.shiftM 0 (-ts.textLeading)
      executeOps fontTable rest { ts with tlm := tlm', tm := tlm' } font enc
    | .setTextLeading l => executeOps fontTable rest { ts with textLeading := l } font enc
    | _ => executeOps fontTable rest ts font enc

/-- `TextExtractor._execute_page` (tool.py lines 63-163): `NewPage`
first, then the interpreted content-stream operations. -/
def executePage (fontTable : List (List Nat × FontM)) (ops : List Operation) :
    List TextElem :=
  .newPage :: executeOps fontTable ops TextStateM.init ⟨STD_ENCODING, [], 0⟩ STD_ENCODING

/-- Whole-page pipeline of `TextExtractor._execute_page`: tokenize the
content-stream bytes, interpret them into operations, execute them;
`none` when content parsing raises. -/
def pageElems (fontTable : List (List Nat × FontM)) (content : List Nat)
    (fuel : Nat) : Option (List TextElem) :=
  match parseContent (tokenize fuel content) with
  | .ok ops => some (executePage fontTable ops)
  | .error _ => none

/-! # Theorems -/

/-! ## C7 : RC4 round-trip -/

theorem arc4Loop_cons (b : Nat) (rest perm : List Nat) (i j : Nat) :
    arc4Loop (b :: rest) perm i j =
      (b ^^^ (prgaStep perm i j).2.2.2) ::
        arc4Loop rest (prgaStep perm i j).1 (prgaStep perm i j).2.1
          (prgaStep perm i j).2.2.1 := rfl

theorem arc4Loop_arc4Loop (d : List Nat) :
    ∀ perm i j, arc4Loop (arc4Loop d perm i j) perm i j = d := by
  induction d with
  | nil => intro perm i j; rfl
  | cons b rest ih =>
    intro perm i j
    rw [arc4Loop_cons, arc4Loop_cons, ih, Nat.xor_cancel_right]

/-- C7: for every non-empty key `k` and every byte sequence `d`,
`ARC4(k, ARC4(k, d)) = d` — the per-object RC4 cipher of security.py is
an involution, so encrypting then decrypting with the same key
reproduces the original buffer. -/
theorem ARC4_involutive (key data : List Nat) (_h : key ≠ []) :
    ARC4 key (ARC4 key data) = data := by
  unfold ARC4
  exact arc4Loop_arc4Loop data (initARC4 key) 0 0

theorem ARC4_involutive_witness :
    [75, 101, 121] ≠ ([] : List Nat) ∧
      ARC4 [75, 101, 121] (ARC4 [75, 101, 121] [80, 108, 97]) = [80, 108, 97] :=
  ⟨by decide, ARC4_involutive [75, 101, 121] [80, 108, 97] (by decide)⟩

/-! ## C8 : octal escapes in literal strings -/

/-- C8: octal escapes consume one to three octal digits and produce one
byte: `(\0053)` tokenizes to the single string token `[0x05, '3']`, and
`(\053)` and `(\53)` each tokenize to the single string token `[0x2B]`. -/
theorem tokenizer_octal_escapes :
    tokenize 100 [40, 92, 48, 48, 53, 51, 41] = [.string [5, 51]] ∧
      tokenize 100 [40, 92, 48, 53, 51, 41] = [.string [43]] ∧
      tokenize 100 [40, 92, 53, 51, 41] = [.string [43]] :=
  ⟨rfl, rfl, rfl⟩

/-! ## C1 : word tokens `true` and `false` in ObjectParser.parse -/

/-- C1: evaluation of `ObjectParser.parse` on the word tokens `true` and
`false`.  The word `true` resolves to boolean true (alone and inside a
container), but the word `false` — because parser.py lines 512-515 test
`token.bs == b"true"` twice and never `b"false"` — falls through to
`assert False` and raises instead of producing boolean false. -/
theorem objectParser_true_false_eval :
    readObject 100 { data := strBytes "true ", pos := 0 } =
        .ok (.bool true, { data := strBytes "true ", pos := 5 }) ∧
      readObject 100 { data := strBytes "[true]", pos := 0 } =
        .ok (.array [.bool true], { data := strBytes "[true]", pos := 6 }) ∧
      readObject 100 { data := strBytes "false ", pos := 0 } =
        .error .assertionError :=
  ⟨rfl, rfl, rfl⟩

/-! ## C3 : stream window byte count -/

/-- C3: evaluation of `PDFParser._stream_window` on a source of 80 bytes.
For `length = 39` the yielded chunks concatenate to exactly the first 39
bytes, but for `length = 40` (a positive multiple of `BUF_SIZE = 40`)
the loop `range(0, length - BUF_SIZE, BUF_SIZE)` runs zero times and
`length % BUF_SIZE = 0`, so the concatenation is empty instead of the 40
stream bytes. -/
theorem streamWindow_multiple_of_buf_eval :
    (streamWindow { data := List.range 80, pos := 0 } 0 39).flatten =
        (List.range 80).take 39 ∧
      (streamWindow { data := List.range 80, pos := 0 } 0 40).flatten = [] ∧
      ((List.range 80).take 40).length = 40 := by
  refine ⟨by decide, by decide, by decide⟩

/-! ## C4 : seed text-extraction scenario -/

/-- C4: evaluation of the full pipeline (tokenizer, content parser, text
extractor) on the content stream `BT /F1 12 Tf 100 700 Td (Hello) Tj ET`.
The output is `NewPage` followed by one `Text` element with s = "Hello",
x = 100, y = 700 — but with font_size = 1, not 12: `TextState.font_size`
(parser.py lines 579-581) returns the `a` component of the text matrix,
which the `Tf` operand never touches. -/
theorem textExtraction_seed_eval :
    pageElems [] (strBytes "BT /F1 12 Tf 100 700 Td (Hello) Tj ET") 400 =
      some [.newPage, .text "Hello" 100 700 0 0 1 0] := by
  have hops : parseContent (tokenize 400
      (strBytes "BT /F1 12 Tf 100 700 Td (Hello) Tj ET")) =
      .ok [.beginText, .setFont [47, 70, 49] 12, .moveStartNextLine 100 700,
        .showTextString [72, 101, 108, 108, 111]] := rfl
  have hdec : decodeText STD_ENCODING [72, 101, 108, 108, 111] = "Hello" := by
    decide
  unfold pageElems
  rw [hops]
  norm_num [executePage, executeOps, TextStateM.init, TM.identityM, TM.shiftM,
    dlookup, getWidth, FontM.getSpaceWidth, FontM.getPosWidth, hdec]

/-! ## C6 : interpreter error handling -/

/-- C6 counterexample: a type mismatch in an operand — the number `1`
where `Tf` expects a name — does not get logged-and-skipped: the
`checked_cast` failure is not a `KeyError`, so `parse_content`
propagates it and the operation stream is interrupted with an error. -/
theorem parseContent_type_mismatch_aborts :
    parseContent [.number [49], .word (strBytes "Tf")] = .error .typeError :=
  rfl

theorem operatorByTokenBytes_XYZ :
    operatorByTokenBytes (strBytes "XYZ") = none := rfl

/-- C6 amended: an unknown operator mnemonic is logged and skipped and
never interrupts the stream, but the operand queue is left unchanged
rather than cleared; an operand-stack underflow or an operand type
mismatch inside a known operator's `build` raises an uncaught exception
that aborts content parsing. -/
theorem parseContent_error_handling :
    (∀ ts q, parseContentAux (.word (strBytes "XYZ") :: ts) q =
        parseContentAux ts q) ∧
      parseContent [.word (strBytes "Tf")] = .error .typeError ∧
      parseContent [.number [49], .word (strBytes "Tf")] = .error .typeError :=
  ⟨fun _ _ => rfl, rfl, rfl⟩

/-! ## C10 : generation numbers are ignored -/

theorem getIndirectObject_gen_irrelevant (fuel : Nat) (st : DocState)
    (o g1 g2 : PDFObj) :
    getIndirectObject fuel st (.ref o g1) = getIndirectObject fuel st (.ref o g2) := by
  cases fuel <;> rfl

/-- C10: dereferencing ignores the generation number — two indirect
references sharing an object number but with different generation
numbers dereference identically in every document state, because the
cache and the xref are keyed by `obj_num` alone. -/
theorem derefObject_ignores_generation (fuel : Nat) (st : DocState)
    (o g1 g2 : PDFObj) :
    derefObject fuel st (.ref o g1) = derefObject fuel st (.ref o g2) := by
  cases fuel with
  | zero => rfl
  | succ n =>
    simp only [derefObject]
    rw [getIndirectObject_gen_irrelevant n st o g1 g2]

/-! ## C5 : dereferencing an absent object number yields null -/

/-- C5: when the object number of an indirect reference is in neither
the resolved-object cache nor the xref table, `deref_object` returns the
null object and leaves the document state unchanged (in particular, no
cache entry is added). -/
theorem derefObject_absent_returns_null (fuel : Nat) (st : DocState)
    (o g : PDFObj) (n : Int) (h1 : refObjNum (.ref o g) = .ok n)
    (h2 : dlookup st.cache n = none) (h3 : dlookup st.xref n = none) :
    derefObject (fuel + 2) st (.ref o g) = .ok (.null, st) := by
  simp only [derefObject, getIndirectObject, h1, h2, h3]

theorem derefObject_absent_returns_null_witness :
    refObjNum (.ref (.number [49]) (.number [48])) = .ok 1 ∧
      dlookup (DocState.mk { data := [120], pos := 0 } [] [] []).cache 1 = none ∧
      dlookup (DocState.mk { data := [120], pos := 0 } [] [] []).xref 1 = none ∧
      derefObject 2 (DocState.mk { data := [120], pos := 0 } [] [] [])
          (.ref (.number [49]) (.number [48])) =
        .ok (.null, DocState.mk { data := [120], pos := 0 } [] [] []) :=
  ⟨rfl, rfl, rfl,
    derefObject_absent_returns_null 0 (DocState.mk { data := [120], pos := 0 } [] [] [])
      (.number [49]) (.number [48]) 1 rfl rfl rfl⟩

/-! ## C2 : xref merge through the /Prev chain -/

theorem dlookup_dinsert {α β : Type} [DecidableEq α] (d : List (α × β))
    (k : α) (v : β) (m : α) :
    dlookup (dinsert d k v) m = if m = k then some v else dlookup d m := by
  induction d with
  | nil =>
    simp only [dinsert, dlookup]
    by_cases h : m = k
    · subst h; simp
    · have h' : ¬(k = m) := fun hh => h hh.symm
      rw [if_neg h', if_neg h]
  | cons hd tl ih =>
    obtain ⟨k', v'⟩ := hd
    by_cases hk : k' = k
    · subst hk
      simp only [dinsert, if_pos rfl, dlookup]
      by_cases hm : k' = m
      · subst hm; simp
      · have hm' : ¬(m = k') := fun hh => hm hh.symm
        rw [if_neg hm, if_neg hm', if_neg hm]
    · simp only [dinsert, if_neg hk, dlookup, ih]
      by_cases hm : k' = m
      · subst hm
        have hmk : ¬(k' = k) := hk
        rw [if_pos rfl, if_neg hmk, if_pos rfl]
      · rw [if_neg hm, if_neg hm]

theorem optOr_none_right {α : Type} (x : Option α) : optOr x none = x := by
  cases x <;> rfl

theorem optOr_assoc {α : Type} (x y z : Option α) :
    optOr (optOr x y) z = optOr x (optOr y z) := by
  cases x <;> rfl

theorem mergeOther_lookup (other : List (Int × XrefEntry)) :
    ∀ (table : List (Int × XrefEntry)) (n : Int),
      dlookup (mergeOther table other) n = optOr (dlookup table n) (dlookup other n) := by
  induction other with
  | nil => intro table n; simp [mergeOther, optOr_none_right, dlookup]
  | cons kv rest ih =>
    intro table n
    obtain ⟨k, v⟩ := kv
    have hstep : mergeOther table ((k, v) :: rest) =
        mergeOther (if (dlookup table k).isSome then table else dinsert table k v) rest := rfl
    rw [hstep, ih]
    by_cases hk : k = n
    · subst hk
      cases htab : dlookup table k with
      | some w => simp [htab, dlookup, optOr]
      | none => simp [htab, dlookup, dlookup_dinsert, optOr]
    · have hkn : ¬(n = k) := fun h => hk h.symm
      cases htab : dlookup table k with
      | some w => simp [htab, dlookup, hk, optOr]
      | none => simp [htab, dlookup, dlookup_dinsert, hk, hkn, optOr]

theorem mergeFold_lookup (others : List (List (Int × XrefEntry))) :
    ∀ (table : List (Int × XrefEntry)) (n : Int),
      dlookup (others.foldl (fun t sec => mergeOther t (buildXrefDict sec)) table) n =
        optOr (dlookup table n) (newestEntry others n) := by
  induction others with
  | nil => intro table n; simp [newestEntry, optOr_none_right]
  | cons s rest ih =>
    intro table n
    simp only [List.foldl_cons]
    rw [ih, mergeOther_lookup, optOr_assoc]
    rfl

/-! ## C9 : read_indirect_object restores the byte-source position -/

theorem readEndobjWord_offsets (st : DocState) :
    (readEndobjWord st).2.offsets = st.offsets := by
  simp only [readEndobjWord]
  split <;> rfl

theorem readEndobjWord_xref (st : DocState) :
    (readEndobjWord st).2.xref = st.xref := by
  simp only [readEndobjWord]
  split <;> rfl

theorem docFrame : ∀ fuel : Nat,
    (∀ st off i st', readIndirectObject fuel st off = .ok (i, st') →
      st'.src.pos = st.src.pos ∧ st'.offsets = st.offsets ∧ st'.xref = st.xref) ∧
    (∀ st obj x st', readStreamPart fuel st obj = .ok (x, st') →
      st'.offsets = st.offsets ∧ st'.xref = st.xref) ∧
    (∀ st o v st', getObject fuel st o = .ok (v, st') →
      (st'.src.pos = st.src.pos ∧ st'.offsets = st.offsets ∧ st'.xref = st.xref) ∨ v = .null) ∧
    (∀ st r v st', derefObject fuel st r = .ok (v, st') →
      (st'.src.pos = st.src.pos ∧ st'.offsets = st.offsets ∧ st'.xref = st.xref) ∨ v = .null) ∧
    (∀ st r i st', getIndirectObject fuel st r = .ok (i, st') →
      st'.src.pos = st.src.pos ∧ st'.offsets = st.offsets ∧ st'.xref = st.xref) := by
  intro fuel
  induction fuel with
  | zero =>
    refine ⟨?_, ?_, ?_, ?_, ?_⟩ <;> intro st a b c h <;>
      simp [readIndirectObject, readStreamPart, getObject, derefObject,
        getIndirectObject] at h
  | succ n ih =>
    obtain ⟨ihRio, ihRsp, ihGet, ihDeref, ihGio⟩ := ih
    refine ⟨?_, ?_, ?_, ?_, ?_⟩
    · -- readIndirectObject restores position, offsets and xref
      intro st off i st' h
      simp only [readIndirectObject] at h
      split at h
      · simp at h
      · split at h
        · simp at h
        · split at h
          · simp at h
          · split at h
            · -- stream branch
              split at h
              · simp at h
              · rename_i sl st6 hrsp
                have hrspF := ihRsp _ _ _ _ hrsp
                have hoff : st6.offsets = st.src.pos :: st.offsets := by
                  rw [hrspF.1, readEndobjWord_offsets]
                have hx : st6.xref = st.xref := by
                  rw [hrspF.2, readEndobjWord_xref]
                simp only [popSeek, hoff] at h
                simp only [Except.ok.injEq, Prod.mk.injEq] at h
                obtain ⟨-, rfl⟩ := h
                exact ⟨rfl, rfl, hx⟩
            · split at h
              · -- endobj branch
                rename_i hw2
                simp only [popSeek, readEndobjWord_offsets] at h
                simp only [Except.ok.injEq, Prod.mk.injEq] at h
                obtain ⟨-, rfl⟩ := h
                exact ⟨rfl, rfl, readEndobjWord_xref _⟩
              · simp at h
    · -- readStreamPart keeps offsets and xref
      intro st obj x st' h
      simp only [readStreamPart] at h
      split at h
      · -- dict case
        split at h
        · simp at h
        · split at h
          · simp at h
          · rename_i lenObj st1 hget
            split at h
            · split at h
              · simp at h
              · split at h
                · simp at h
                · rename_i bs hlen len hnonneg
                  have hpres : st1.src.pos = st.src.pos ∧ st1.offsets = st.offsets
                      ∧ st1.xref = st.xref := by
                    rcases ihGet _ _ _ _ hget with hp | hnull
                    · exact hp
                    · simp at hnull
                  split at h
                  · split at h
                    · simp only [Except.ok.injEq, Prod.mk.injEq] at h
                      obtain ⟨-, rfl⟩ := h
                      constructor
                      · rw [readEndobjWord_offsets]
                        exact hpres.2.1
                      · rw [readEndobjWord_xref]
                        exact hpres.2.2
                    · simp at h
                  · simp at h
            · simp at h
      · simp at h
    · -- getObject
      intro st o v st' h
      simp only [getObject] at h
      split at h
      · exact ihDeref _ _ _ _ h
      · simp only [Except.ok.injEq, Prod.mk.injEq] at h
        obtain ⟨-, rfl⟩ := h
        exact Or.inl ⟨rfl, rfl, rfl⟩
    · -- derefObject
      intro st r v st' h
      simp only [derefObject] at h
      split at h
      · rename_i iobj st2 hgio
        simp only [Except.ok.injEq, Prod.mk.injEq] at h
        obtain ⟨-, rfl⟩ := h
        exact Or.inl (ihGio _ _ _ _ hgio)
      · simp only [Except.ok.injEq, Prod.mk.injEq] at h
        obtain ⟨hv, rfl⟩ := h
        exact Or.inr hv.symm
      · simp at h
    · -- getIndirectObject
      intro st r i st' h
      simp only [getIndirectObject] at h
      split at h
      · simp at h
      · split at h
        · simp only [Except.ok.injEq, Prod.mk.injEq] at h
          obtain ⟨-, rfl⟩ := h
          exact ⟨rfl, rfl, rfl⟩
        · split at h
          · simp at h
          · split at h
            · simp at h
            · split at h
              · simp at h
              · rename_i iobj st2 hrio
                simp only [Except.ok.injEq, Prod.mk.injEq] at h
                obtain ⟨-, rfl⟩ := h
                have hp := ihRio _ _ _ _ hrio
                exact ⟨hp.1, hp.2.1, hp.2.2⟩

/-- C9: every call of `read_indirect_object` that returns normally
leaves the byte-source position exactly as it was before the call (and
the `_offsets` save-stack balanced), including across the nested
dereference performed to resolve an indirect `/Length`. -/
theorem readIndirectObject_restores_position (fuel : Nat) (st : DocState)
    (off : Int) (i : IObj) (st' : DocState)
    (h : readIndirectObject fuel st off = .ok (i, st')) :
    st'.src.pos = st.src.pos ∧ st'.offsets = st.offsets :=
  ⟨((docFrame fuel).1 st off i st' h).1, ((docFrame fuel).1 st off i st' h).2.1⟩

theorem readIndirectObject_restores_position_witness :
    readIndirectObject 30
        (DocState.mk (Src.mk (strBytes "1 0 obj\n42\nendobj\n") 3) [] [] []) 0 =
        .ok (IObj.indirect 1 0 (.number [52, 50]),
          DocState.mk (Src.mk (strBytes "1 0 obj\n42\nendobj\n") 3) [] [] []) ∧
      (DocState.mk (Src.mk (strBytes "1 0 obj\n42\nendobj\n") 3) [] [] []).src.pos =
        (DocState.mk (Src.mk (strBytes "1 0 obj\n42\nendobj\n") 3) [] [] []).src.pos :=
  ⟨rfl,
    (readIndirectObject_restores_position 30
      (DocState.mk (Src.mk (strBytes "1 0 obj\n42\nendobj\n") 3) [] [] []) 0
      (IObj.indirect 1 0 (.number [52, 50]))
      (DocState.mk (Src.mk (strBytes "1 0 obj\n42\nendobj\n") 3) [] [] []) rfl).1⟩

/-- C2: after merging every section of the `/Prev` chain the merged
table maps each object number to the entry of the newest section that
mentions it; older sections only fill absent object numbers. -/
theorem xrefMerge_newest_wins (newest : List (Int × XrefEntry))
    (others : List (List (Int × XrefEntry))) (n : Int) :
    dlookup (mergePrevChain newest others) n = newestEntry (newest :: others) n := by
  unfold mergePrevChain
  rw [mergeFold_lookup]
  rfl

end MinPdf
